import Mathlib

/-!
Verification of the notification dispatch engine of the `notify` service.

Shallow embedding of the Python source under `src/src/notification_service/`:
pure domain logic (value-object validators, the `Notification` entity, the
dispatch fan-out/aggregation in `presentation/api/v1/notifications.py`) is
translated into executable Lean definitions; fallible constructors return
`Except`; the stateful batch loop becomes a fold over an explicit state.
Wall-clock fields (`processing_time_ms`, random UUIDs) are omitted since no
property depends on them; timestamps are modelled as seconds (`Nat`).
-/

/-- Template policy for a notification type, as returned by
`NotificationType.get_template_config` (notification_type.py lines 58-87). -/
structure TemplateConfig where
  requires_title : Bool
  requires_body : Bool
  supports_data : Bool
  default_priority : String
deriving Repr, DecidableEq

/-- Embeds `NotificationType.get_template_config`.  The source compares the
lower-cased `value` string against the str-enum members `alert`, `silent`,
`custom`; every other value (including `promotional` and `transactional`)
falls into the final `else` branch. -/
def get_template_config (value : String) : TemplateConfig :=
  if value = "alert" then
    { requires_title := true, requires_body := true,
      supports_data := true, default_priority := "high" }
  else if value = "silent" then
    { requires_title := false, requires_body := false,
      supports_data := true, default_priority := "normal" }
  else if value = "custom" then
    { requires_title := false, requires_body := false,
      supports_data := true, default_priority := "normal" }
  else
    { requires_title := true, requires_body := true,
      supports_data := true, default_priority := "normal" }

/-- The `Notification` entity (notification.py).  Fields not used by any
invariant or transition (id, created_at, priority, collapse_key, ttl) are
omitted; `data` keeps only what `validate` inspects, namely the key/value
entries of the dict (Python dict truthiness = non-emptiness).
`device_tokens` holds the token values of the `DeviceTokenList` when
device-targeted; `topic` holds the topic name when topic-targeted. -/
structure Notification where
  notification_type : String
  title : Option String
  body : Option String
  data : List (String × String)
  device_tokens : Option (List String)
  topic : Option String
  scheduled_at : Option Nat
  expires_at : Option Nat
  status : String
  sent_count : Nat
  failed_count : Nat
  error_message : Option String
deriving Repr, DecidableEq

/-- Python truthiness of an `Optional[str]`: `None` and the empty string are
falsy, every other string is truthy (used by `validate` via `not self.title`). -/
def truthyStr (o : Option String) : Bool :=
  match o with
  | none => false
  | some s => !(s == "")

/-- Embeds `Notification.validate` (notification.py lines 86-120): appends one
message per violated invariant, in source order, and returns the whole list.
`current_time` is seconds since the epoch; the source's
`replace(second=0, microsecond=0)` truncates to the whole minute, modelled as
`current_time / 60 * 60`, and the 5-minute grace buffer subtracts 300 seconds
(Nat subtraction, which agrees with the source for any realistic clock). -/
def Notification.validate (n : Notification) (current_time : Nat) : List String :=
  let tc := get_template_config n.notification_type
  let buffer_time := current_time / 60 * 60 - 300
  (if n.device_tokens = none ∧ n.topic = none then
      ["Notification must target either device tokens or a topic"] else [])
  ++ (if n.device_tokens ≠ none ∧ n.topic ≠ none then
      ["Notification cannot target both device tokens and topic"] else [])
  ++ (if tc.requires_title ∧ ¬ truthyStr n.title then
      ["Notification type \x27" ++ n.notification_type ++ "\x27 requires a title"] else [])
  ++ (if tc.requires_body ∧ ¬ truthyStr n.body then
      ["Notification type \x27" ++ n.notification_type ++ "\x27 requires a body"] else [])
  ++ (if ¬ tc.supports_data ∧ n.data ≠ [] then
      ["Notification type \x27" ++ n.notification_type ++ "\x27 does not support custom data"] else [])
  ++ (if n.scheduled_at.any (fun t => t < buffer_time) then
      ["Scheduled time cannot be in the past (with 5-minute buffer)"] else [])
  ++ (if n.expires_at.any (fun t => t < current_time) then
      ["Expiration time cannot be in the past"] else [])

/-- Embeds `Notification.mark_sent` (notification.py lines 134-138): adds
`count` to `sent_count` and moves `pending` to `sent`, leaving any other
status (in particular `failed`) untouched.  The `count` argument is an
FCM-reported success count, always non-negative, hence `Nat`. -/
def Notification.mark_sent (n : Notification) (count : Nat) : Notification :=
  { n with
    sent_count := n.sent_count + count,
    status := if n.status = "pending" then "sent" else n.status }

/-- Embeds `Notification.mark_failed` (notification.py lines 140-144): adds
`count` to `failed_count`, stores the error message, and unconditionally sets
the status to `failed`.  The message is `Option String` because callers pass
`result["error"]`, which is `None` on FCM success results. -/
def Notification.mark_failed (n : Notification) (msg : Option String) (count : Nat) : Notification :=
  { n with
    failed_count := n.failed_count + count,
    error_message := msg,
    status := "failed" }

/-- Result dict of `FCMClient.send_to_device` (fcm_client.py lines 97-121). -/
structure SendResult where
  success : Bool
  message_id : Option String
  error : Option String
deriving Repr, DecidableEq

/-- Result dict of `FCMClient.send_to_multiple_devices`
(fcm_client.py lines 161-188). -/
structure MulticastResult where
  success : Bool
  success_count : Nat
  failure_count : Nat
  error : Option String
deriving Repr, DecidableEq

/-- The per-dispatch `NotificationResult` schema (notification_response.py),
as populated by `send_notification`. -/
structure NotificationResult where
  status : String
  sent_count : Nat
  failed_count : Nat
  error_message : Option String
  target_count : Nat
deriving Repr, DecidableEq

/-- Embeds the single-device branch of `send_notification`
(notifications.py lines 87-117): mutates the entity via
`mark_sent`/`mark_failed` and builds the reported result. -/
def dispatchSingle (nt : Notification) (r : SendResult) :
    Notification × NotificationResult :=
  if r.success then
    (nt.mark_sent 1,
      { status := "success", sent_count := 1, failed_count := 0,
        error_message := r.error, target_count := 1 })
  else
    (nt.mark_failed r.error 1,
      { status := "failed", sent_count := 0, failed_count := 1,
        error_message := r.error, target_count := 1 })

/-- Embeds the multicast branch of `send_notification`
(notifications.py lines 119-152), for a request of `n` device tokens.
On a gateway result (`success=true`): `mark_sent(success_count)`, then
`mark_failed("Some devices failed", failure_count)` when `failure_count>0`;
status is `partial` when `failure_count>0`, else `success`.  On an outright
gateway failure: `mark_failed(result["error"])` with the default count of 1,
while the reported result carries `failed_count = n`. -/
def dispatchMulti (nt : Notification) (n : Nat) (r : MulticastResult) :
    Notification × NotificationResult :=
  if r.success then
    let nt1 := nt.mark_sent r.success_count
    let nt2 := if r.failure_count > 0 then
        nt1.mark_failed (some "Some devices failed") r.failure_count
      else nt1
    (nt2,
      { status := if r.failure_count > 0 then "partial" else "success",
        sent_count := r.success_count, failed_count := r.failure_count,
        error_message := r.error, target_count := n })
  else
    (nt.mark_failed r.error 1,
      { status := "failed", sent_count := 0, failed_count := n,
        error_message := r.error, target_count := n })

/-- A fresh notification as produced by the named constructors for the
device-targeted path, before any dispatch (status `pending`, zero counters). -/
def init0 : Notification :=
  { notification_type := "alert", title := some "t", body := some "b",
    data := [], device_tokens := some ["tokA", "tokB"], topic := none,
    scheduled_at := none, expires_at := none,
    status := "pending", sent_count := 0, failed_count := 0,
    error_message := none }

/-- C1: for a device-targeted dispatch of `n > 1` tokens, a gateway result
with `success=true` yields `status = partial` exactly when `failure_count>0`
(else `success`), `sent_count = success_count`, `failed_count =
failure_count`, and `target_count = n`; an outright gateway failure yields
`status = failed`, `sent_count = 0`, `failed_count = n`, `target_count = n`. -/
theorem C1_multicast_aggregation (nt : Notification) (n : Nat) (r : MulticastResult)
    (_hn : 1 < n) :
    (r.success = true →
        (dispatchMulti nt n r).2.status
            = (if r.failure_count > 0 then "partial" else "success")
      ∧ (dispatchMulti nt n r).2.sent_count = r.success_count
      ∧ (dispatchMulti nt n r).2.failed_count = r.failure_count
      ∧ (dispatchMulti nt n r).2.target_count = n)
    ∧ (r.success = false →
        (dispatchMulti nt n r).2.status = "failed"
      ∧ (dispatchMulti nt n r).2.sent_count = 0
      ∧ (dispatchMulti nt n r).2.failed_count = n
      ∧ (dispatchMulti nt n r).2.target_count = n) := by
  constructor
  · intro hs
    simp [dispatchMulti, hs]
  · intro hs
    simp [dispatchMulti, hs]

/-- Gateway multicast result of the spec's worked example: 3 successes and 2
failures over 5 tokens, with a top-level success flag. -/
def partialResult : MulticastResult :=
  { success := true, success_count := 3, failure_count := 2, error := none }

/-- Gateway multicast result for an outright call failure (fcm_client.py
lines 172-178: success false, zero counts, error string). -/
def outrightFailure : MulticastResult :=
  { success := false, success_count := 0, failure_count := 0,
    error := some "FCM unavailable" }

/-- Witness for C1 at the spec's own example: 5 tokens, gateway result
`(success_count=3, failure_count=2)`, and a second instance with an outright
gateway failure. -/
theorem C1_multicast_aggregation_witness :
    ((dispatchMulti init0 5 partialResult).2.status = "partial"
      ∧ (dispatchMulti init0 5 partialResult).2.sent_count = 3
      ∧ (dispatchMulti init0 5 partialResult).2.failed_count = 2
      ∧ (dispatchMulti init0 5 partialResult).2.target_count = 5)
    ∧ ((dispatchMulti init0 5 outrightFailure).2.status = "failed"
      ∧ (dispatchMulti init0 5 outrightFailure).2.failed_count = 5) := by
  refine ⟨?_, ?_⟩
  · have h := (C1_multicast_aggregation init0 5 partialResult (by decide)).1 rfl
    exact ⟨h.1, h.2.1, h.2.2.1, h.2.2.2⟩
  · have h := (C1_multicast_aggregation init0 5 outrightFailure (by decide)).2 rfl
    exact ⟨h.1, h.2.2.1⟩

/-- C10: `mark_sent n` adds exactly `n` to `sent_count` (hence never
decreases it) and changes the status only from `pending` to `sent`, never
overwriting `failed`; `mark_failed msg n` adds `n` to `failed_count`, stores
`msg`, and forces the status to `failed` whatever it was before. -/
theorem C10_mark_transitions (nt : Notification) (n : Nat) (msg : Option String) :
    ((nt.mark_sent n).sent_count = nt.sent_count + n)
    ∧ (nt.sent_count ≤ (nt.mark_sent n).sent_count)
    ∧ ((nt.mark_sent n).status = if nt.status = "pending" then "sent" else nt.status)
    ∧ (nt.status = "failed" → (nt.mark_sent n).status = "failed")
    ∧ ((nt.mark_failed msg n).failed_count = nt.failed_count + n)
    ∧ ((nt.mark_failed msg n).error_message = msg)
    ∧ ((nt.mark_failed msg n).status = "failed") := by
  refine ⟨rfl, Nat.le_add_right _ _, rfl, ?_, rfl, rfl, rfl⟩
  intro h
  simp [Notification.mark_sent, h]

/-- Witness for C10: a notification already in status `failed` keeps that
status through `mark_sent`, while its counter still increases. -/
theorem C10_mark_transitions_witness :
    (((init0.mark_failed (some "boom") 1).mark_sent 5).status = "failed")
    ∧ (((init0.mark_failed (some "boom") 1).mark_sent 5).sent_count
        = (init0.mark_failed (some "boom") 1).sent_count + 5) := by
  have h := C10_mark_transitions (init0.mark_failed (some "boom") 1) 5 none
  exact ⟨h.2.2.2.1 rfl, h.1⟩

/-- C3 counterexample input: a 2-token multicast whose gateway call fails
outright with an error string (fcm_client.py failure shape). -/
def boomFailure : MulticastResult :=
  { success := false, success_count := 0, failure_count := 0,
    error := some "boom" }

/-- C3 (as stated) is false: on an outright multicast gateway failure over 2
tokens, `mark_failed(result["error"])` uses the default count 1, so the
entity records `failed_count = 1` while the reported result carries
`failed_count = 2`. -/
theorem C3_entity_divergence_cex :
    (dispatchMulti init0 2 boomFailure).1.failed_count
      ≠ (dispatchMulti init0 2 boomFailure).2.failed_count := by
  decide

/-- C3 amended: on a fresh notification, `sent_count` always matches the
reported result, and the entity status is `failed` exactly when the reported
`failed_count` is positive (so on a `partial` result the entity is also
`failed`); the entity's `failed_count` matches the reported one whenever the
gateway returned a result, but on an outright multicast failure the entity
gets `failed_count = 1` while the report carries the full target count. -/
theorem C3_entity_result_agreement (nt : Notification) (r : SendResult)
    (m : MulticastResult) (n : Nat)
    (hst : nt.status = "pending") (hs : nt.sent_count = 0)
    (hf : nt.failed_count = 0) (hn : 1 < n) :
    ((dispatchSingle nt r).1.sent_count = (dispatchSingle nt r).2.sent_count)
    ∧ ((dispatchSingle nt r).1.failed_count = (dispatchSingle nt r).2.failed_count)
    ∧ ((dispatchSingle nt r).1.status = "failed"
        ↔ 0 < (dispatchSingle nt r).2.failed_count)
    ∧ ((dispatchMulti nt n m).1.sent_count = (dispatchMulti nt n m).2.sent_count)
    ∧ ((dispatchMulti nt n m).1.status = "failed"
        ↔ 0 < (dispatchMulti nt n m).2.failed_count)
    ∧ (m.success = true →
        (dispatchMulti nt n m).1.failed_count = (dispatchMulti nt n m).2.failed_count)
    ∧ (m.success = false →
        (dispatchMulti nt n m).1.failed_count = 1
        ∧ (dispatchMulti nt n m).2.failed_count = n) := by
  refine ⟨?_, ?_, ?_, ?_, ?_, ?_, ?_⟩
  · cases hr : r.success <;>
      simp [dispatchSingle, hr, Notification.mark_sent, Notification.mark_failed, hs]
  · cases hr : r.success <;>
      simp [dispatchSingle, hr, Notification.mark_sent, Notification.mark_failed, hf]
  · cases hr : r.success <;>
      simp [dispatchSingle, hr, Notification.mark_sent, Notification.mark_failed, hst]
  · cases hm : m.success
    · simp [dispatchMulti, hm, Notification.mark_failed, hs]
    · by_cases hfc : m.failure_count > 0 <;>
        simp [dispatchMulti, hm, hfc, Notification.mark_sent, Notification.mark_failed, hs]
  · cases hm : m.success
    · simp [dispatchMulti, hm, Notification.mark_failed]
      omega
    · by_cases hfc : m.failure_count > 0 <;>
        simp [dispatchMulti, hm, hfc, Notification.mark_sent, Notification.mark_failed, hst]
  · intro hm
    by_cases hfc : m.failure_count > 0
    · simp [dispatchMulti, hm, hfc, Notification.mark_sent, Notification.mark_failed, hf]
    · simp [dispatchMulti, hm, hfc, Notification.mark_sent, Notification.mark_failed, hf]
      omega
  · intro hm
    simp [dispatchMulti, hm, Notification.mark_failed, hf]

/-- A successful single-device gateway result (fcm_client.py lines 97-102). -/
def okSingle : SendResult :=
  { success := true, message_id := some "mid-1", error := none }

/-- Witness for C3: concrete instances covering the single-device success,
the gateway-result multicast (partial) and the outright multicast failure. -/
theorem C3_entity_result_agreement_witness :
    ((dispatchSingle init0 okSingle).1.sent_count
        = (dispatchSingle init0 okSingle).2.sent_count)
    ∧ ((dispatchMulti init0 5 partialResult).1.failed_count
        = (dispatchMulti init0 5 partialResult).2.failed_count)
    ∧ ((dispatchMulti init0 5 outrightFailure).1.failed_count = 1
        ∧ (dispatchMulti init0 5 outrightFailure).2.failed_count = 5) := by
  have h1 := C3_entity_result_agreement init0 okSingle partialResult 5
    rfl rfl rfl (by decide)
  have h2 := C3_entity_result_agreement init0 okSingle outrightFailure 5
    rfl rfl rfl (by decide)
  exact ⟨h1.1, h1.2.2.2.2.2.1 rfl, h2.2.2.2.2.2.2 rfl⟩

/-- C4 counterexample input: gateway reports a top-level success with
`success_count = 0` and `failure_count = 2`. -/
def zeroSuccessResult : MulticastResult :=
  { success := true, success_count := 0, failure_count := 2, error := none }

/-- C4 (as stated) is false: for a gateway result with `success_count = 0`
and `failure_count = 2` over 2 tokens, the orchestrator derives status
`partial`, not `failed`. -/
theorem C4_zero_success_cex :
    (dispatchMulti init0 2 zeroSuccessResult).2.status = "partial"
    ∧ (dispatchMulti init0 2 zeroSuccessResult).2.status ≠ "failed" := by
  exact ⟨by decide, by decide⟩

/-- C4 amended: whenever the multicast gateway call returns a result
(`success = true`) with `failure_count > 0`, the derived aggregate status is
`partial` — also when `success_count = 0`. -/
theorem C4_zero_success_partial (nt : Notification) (n : Nat)
    (m : MulticastResult) (hm : m.success = true) (hf : 0 < m.failure_count) :
    (dispatchMulti nt n m).2.status = "partial" := by
  simp [dispatchMulti, hm, hf]

/-- Witness for C4 at `success_count = 0`, `failure_count = 2`. -/
theorem C4_zero_success_partial_witness :
    (dispatchMulti init0 2 zeroSuccessResult).2.status = "partial" :=
  C4_zero_success_partial init0 2 zeroSuccessResult rfl (by decide)

/-- The dispatch response schema of the send endpoint (the fields the core
populates; `notification_id` and `processing_time_ms` are omitted as a random
UUID and a wall-clock reading). -/
structure SendNotificationResponse where
  success : Bool
  results : List NotificationResult
  total_sent : Nat
  total_failed : Nat
  total_targets : Nat
  message : String
deriving Repr, DecidableEq

/-- Embeds the post-gateway tail of `send_notification` (notifications.py
lines 154-195): after the gateway outcome is fixed and the response value is
determined, the handler awaits `valkey_client.set` and then
`valkey_client.publish`.  `ValkeyClient.set`/`publish` (valkey_client.py)
log store errors and re-raise them, and the endpoint's only handler is the
outer `except Exception` which raises `HTTPException(500, str(e))` — modelled
as `Except.error`.  So a store failure on either step replaces the
gateway-determined response. -/
def persistAndPublish (resp : SendNotificationResponse)
    (setOutcome : Except String Bool) (publishOutcome : Except String Nat) :
    Except String SendNotificationResponse :=
  match setOutcome with
  | Except.error e => Except.error e
  | Except.ok _ =>
    match publishOutcome with
    | Except.error e => Except.error e
    | Except.ok _ => Except.ok resp

/-- A gateway-determined dispatch response used as concrete input. -/
def sampleResponse : SendNotificationResponse :=
  { success := true,
    results := [{ status := "success", sent_count := 1, failed_count := 0,
                  error_message := none, target_count := 1 }],
    total_sent := 1, total_failed := 0, total_targets := 1,
    message := "Notification sent successfully to 1 devices" }

/-- C5 (as stated) is false: a failing status-persist write makes the
dispatch surface the store error instead of the gateway-determined result. -/
theorem C5_store_error_cex :
    persistAndPublish sampleResponse (Except.error "store down") (Except.ok 0)
      = Except.error "store down"
    ∧ persistAndPublish sampleResponse (Except.error "store down") (Except.ok 0)
      ≠ Except.ok sampleResponse := by
  exact ⟨rfl, fun h => Except.noConfusion h⟩

/-- C5 amended: a failure of the status-persist write or of the event-publish
step propagates out of the handler and surfaces to the caller as a generic
error (HTTP 500), discarding the gateway-determined result; only when both
store steps succeed is that result returned.  A persist failure preempts the
publish step. -/
theorem C5_store_errors_surface (resp : SendNotificationResponse) (e : String)
    (pub : Except String Nat) (b : Bool) (k : Nat) :
    persistAndPublish resp (Except.error e) pub = Except.error e
    ∧ persistAndPublish resp (Except.ok b) (Except.error e) = Except.error e
    ∧ persistAndPublish resp (Except.ok b) (Except.ok k) = Except.ok resp := by
  exact ⟨rfl, rfl, rfl⟩

/-- Outcome of processing one item of a batch request
(`send_batch_notifications`, notifications.py lines 305-431).  `exc` covers
any exception raised while handling the item (DTO/value-object validation,
`create_notification`, or the gateway call raising) — caught by the per-item
`except` block; `single` and `multi` are the two gateway branches, selected
by the item's token count (`multi` carries that count).  Store writes inside
the loop are taken as succeeding. -/
inductive ItemOutcome where
  | exc (msg : String)
  | single (r : SendResult)
  | multi (tokenCount : Nat) (r : MulticastResult)
deriving Repr, DecidableEq

/-- The per-item response appended to `results` by `send_batch_notifications`:
the `except` branch appends a failed response with the diagnostic message
(lines 422-431); the try branch appends a `SendNotificationResponse` built
from the per-item counts and status (lines 397-415).  The response reads the
shared Python variable `failed_count` AFTER the aggregate `+= 1` of lines
358/379, so a failed single-device item carries `failed_count = 2` and a
failed multicast item `n + 1` — the counter corruption of C2 leaks into the
per-item responses as well. -/
def itemResponse (item : ItemOutcome) : SendNotificationResponse :=
  match item with
  | ItemOutcome.exc msg =>
    { success := false, results := [],
      total_sent := 0, total_failed := 1, total_targets := 0,
      message := "Failed to process notification: " ++ msg }
  | ItemOutcome.single r =>
    if r.success then
      { success := true,
        results := [{ status := "success", sent_count := 1, failed_count := 0,
                      error_message := r.error, target_count := 1 }],
        total_sent := 1, total_failed := 0, total_targets := 1,
        message := "Batch notification success" }
    else
      { success := false,
        results := [{ status := "failed", sent_count := 0, failed_count := 1 + 1,
                      error_message := r.error, target_count := 1 }],
        total_sent := 0, total_failed := 1 + 1, total_targets := 1,
        message := "Batch notification failed" }
  | ItemOutcome.multi n r =>
    if r.success then
      { success := (if r.failure_count > 0 then "partial" else "success") ≠ "failed",
        results := [{ status := if r.failure_count > 0 then "partial" else "success",
                      sent_count := r.success_count, failed_count := r.failure_count,
                      error_message := r.error, target_count := n }],
        total_sent := r.success_count, total_failed := r.failure_count,
        total_targets := n,
        message := "Batch notification "
          ++ (if r.failure_count > 0 then "partial" else "success") }
    else
      { success := false,
        results := [{ status := "failed", sent_count := 0, failed_count := n + 1,
                      error_message := r.error, target_count := n }],
        total_sent := 0, total_failed := n + 1, total_targets := n,
        message := "Batch notification failed" }

/-- Loop state of `send_batch_notifications`.  The source uses ONE Python
variable `failed_count` both as the per-item failed count (assigned inside
each gateway branch, lines 351/356/372/377) and as the batch aggregate
counter (initialised at line 303, incremented at lines 358/379/419), so each
iteration's assignment clobbers the running aggregate. -/
structure BatchState where
  results : List SendNotificationResponse
  successful_count : Nat
  failed_count : Nat
deriving Repr, DecidableEq

/-- One iteration of the loop in `send_batch_notifications`.  In the
exception branch `failed_count += 1` acts on the carried value; in the
single-failure branch the variable is assigned 1 and then incremented
(yielding 2); in the multi branches it is assigned `failure_count` resp.
`tokenCount` (then incremented on outright failure); in the success branches
it is assigned 0 resp. `failure_count` while `successful_count += 1`. -/
def processBatchItem (st : BatchState) (item : ItemOutcome) : BatchState :=
  { results := st.results ++ [itemResponse item],
    successful_count := st.successful_count +
      (match item with
        | ItemOutcome.exc _ => 0
        | ItemOutcome.single r => if r.success then 1 else 0
        | ItemOutcome.multi _ r => if r.success then 1 else 0),
    failed_count :=
      match item with
      | ItemOutcome.exc _ => st.failed_count + 1
      | ItemOutcome.single r => if r.success then 0 else 1 + 1
      | ItemOutcome.multi n r => if r.success then r.failure_count else n + 1 }

/-- The batch response schema (`BatchNotificationResponse`,
notification_response.py), as populated at lines 446-455. -/
structure BatchNotificationResponse where
  success : Bool
  total_notifications : Nat
  successful_notifications : Nat
  failed_notifications : Nat
  results : List SendNotificationResponse
  message : String
deriving Repr, DecidableEq

/-- Embeds `send_batch_notifications` (notifications.py lines 300-455):
folds the per-item loop over the batch and builds the rollup response from
the final loop state. -/
def send_batch_notifications (items : List ItemOutcome) : BatchNotificationResponse :=
  let st := List.foldl processBatchItem
    { results := [], successful_count := 0, failed_count := 0 } items
  { success := st.failed_count == 0,
    total_notifications := items.length,
    successful_notifications := st.successful_count,
    failed_notifications := st.failed_count,
    results := st.results,
    message := "Batch processing completed: " ++ toString st.successful_count
      ++ " successful, " ++ toString st.failed_count ++ " failed" }

/-- A failing single-device gateway result used as a batch item. -/
def failSingle : SendResult :=
  { success := false, message_id := none, error := some "FCM error" }

/-- C2: the claim matches the spec's intent, but the code reuses the Python
variable `failed_count` for both the per-item count and the batch aggregate,
so the aggregate is clobbered every iteration.  Evaluated at the failing
input — a 1-item batch whose single-device gateway call fails — the response
reports `failed_notifications = 2` (assigned 1, then incremented) for a batch
of 1, and a 2-item batch [failure, success] reports 1 successful and 0
failed, so the counts neither count the failed items nor sum to N. -/
theorem C2_batch_counters_bug :
    (send_batch_notifications [ItemOutcome.single failSingle]).failed_notifications = 2
    ∧ (send_batch_notifications [ItemOutcome.single failSingle]).total_notifications = 1
    ∧ (send_batch_notifications
        [ItemOutcome.single failSingle, ItemOutcome.single okSingle]).successful_notifications = 1
    ∧ (send_batch_notifications
        [ItemOutcome.single failSingle, ItemOutcome.single okSingle]).failed_notifications = 0 := by
  refine ⟨rfl, rfl, rfl, rfl⟩

/-- The results list accumulated by the batch loop is exactly the map of
`itemResponse` over the items, whatever the starting state. -/
theorem processBatch_results (items : List ItemOutcome) (st : BatchState) :
    (List.foldl processBatchItem st items).results
      = st.results ++ items.map itemResponse := by
  induction items generalizing st with
  | nil => simp
  | cons hd tl ih =>
    simp [List.foldl_cons, ih, processBatchItem, List.append_assoc]

/-- C6: batch processing is isolated per item and order-preserving — the
response carries exactly one result per input item, in input order, each
determined by that item's own outcome alone; an item that raises an exception
(validation failure included) contributes a failed per-item result carrying
the diagnostic message, and the remaining items still contribute theirs. -/
theorem C6_batch_isolation (items : List ItemOutcome) :
    ((send_batch_notifications items).results = items.map itemResponse)
    ∧ ((send_batch_notifications items).results.length = items.length)
    ∧ (∀ msg, (itemResponse (ItemOutcome.exc msg)).success = false
        ∧ (itemResponse (ItemOutcome.exc msg)).message
            = "Failed to process notification: " ++ msg
        ∧ (itemResponse (ItemOutcome.exc msg)).total_failed = 1) := by
  have hres : (send_batch_notifications items).results = items.map itemResponse := by
    simp [send_batch_notifications, processBatch_results]
  refine ⟨hres, ?_, fun msg => ⟨rfl, rfl, rfl⟩⟩
  rw [hres]
  exact items.length_map itemResponse

/-- C7: `Notification.validate` collects every violated invariant instead of
stopping at the first one — the targeting violations (neither or both of
device_tokens/topic) each contribute their message, and for a type whose
policy requires title and body the two checks fire independently, so a
notification missing both carries both messages in the returned list. -/
theorem C7_validate_full_list (n : Notification) (now : Nat) :
    (n.device_tokens = none → n.topic = none →
      "Notification must target either device tokens or a topic" ∈ n.validate now)
    ∧ (n.device_tokens ≠ none → n.topic ≠ none →
      "Notification cannot target both device tokens and topic" ∈ n.validate now)
    ∧ ((get_template_config n.notification_type).requires_title = true →
        truthyStr n.title = false →
      ("Notification type \x27" ++ n.notification_type ++ "\x27 requires a title")
        ∈ n.validate now)
    ∧ ((get_template_config n.notification_type).requires_body = true →
        truthyStr n.body = false →
      ("Notification type \x27" ++ n.notification_type ++ "\x27 requires a body")
        ∈ n.validate now) := by
  refine ⟨?_, ?_, ?_, ?_⟩
  · intro h1 h2
    simp [Notification.validate, h1, h2]
  · intro h1 h2
    simp [Notification.validate, h1, h2]
  · intro h1 h2
    simp [Notification.validate, h1, h2]
  · intro h1 h2
    simp [Notification.validate, h1, h2]

/-- An `alert` notification with no targeting, no title and no body. -/
def bareAlert : Notification :=
  { notification_type := "alert", title := none, body := none,
    data := [], device_tokens := none, topic := none,
    scheduled_at := none, expires_at := none,
    status := "pending", sent_count := 0, failed_count := 0,
    error_message := none }

/-- An `alert` notification with both device tokens and a topic set. -/
def doublyTargeted : Notification :=
  { notification_type := "alert", title := some "t", body := some "b",
    data := [], device_tokens := some ["tokA"], topic := some "news",
    scheduled_at := none, expires_at := none,
    status := "pending", sent_count := 0, failed_count := 0,
    error_message := none }

/-- Witness for C7: the alert with neither targeting, title nor body carries
the targeting message and both the requires-a-title and requires-a-body
messages at once; the doubly-targeted one carries the both-set message. -/
theorem C7_validate_full_list_witness :
    ("Notification must target either device tokens or a topic"
        ∈ bareAlert.validate 1000)
    ∧ ("Notification type \x27alert\x27 requires a title" ∈ bareAlert.validate 1000)
    ∧ ("Notification type \x27alert\x27 requires a body" ∈ bareAlert.validate 1000)
    ∧ ("Notification cannot target both device tokens and topic"
        ∈ doublyTargeted.validate 1000) := by
  have h1 := C7_validate_full_list bareAlert 1000
  have h2 := C7_validate_full_list doublyTargeted 1000
  exact ⟨h1.1 rfl rfl, h1.2.2.1 rfl rfl, h1.2.2.2 rfl rfl,
    h2.2.1 (by simp [doublyTargeted]) (by simp [doublyTargeted])⟩

/-- Embeds `TopicSubscriptionRequest.validate_device_tokens`
(notification_request.py lines 170-184; the identical validator also sits on
`TopicSubscription`, topic.py lines 59-73).  Despite its `# Remove
duplicates` comment it computes `unique_tokens = list(set(v))` only to
compare lengths, and RAISES when any duplicate was present; the deduplicated
list is returned only when there was nothing to deduplicate.  `list(set(v))`
is modelled as `v.dedup` (same length and members; Python set order is
unspecified). -/
def TopicSubscriptionRequest.validate_device_tokens (v : List String) :
    Except String (List String) :=
  if v = [] then Except.error "At least one device token is required"
  else if v.length > 1000 then
    Except.error "Maximum 1000 device tokens per topic subscription"
  else
    let unique_tokens := v.dedup
    if unique_tokens.length ≠ v.length then
      Except.error "Duplicate device tokens are not allowed"
    else Except.ok unique_tokens

/-- C8 (as stated) is false: a raw token list with a duplicate entering the
topic-subscription path is rejected with the duplicate-token error, not
silently deduplicated. -/
theorem C8_duplicates_rejected_cex :
    TopicSubscriptionRequest.validate_device_tokens
        ["device-token-a", "device-token-a"]
      = Except.error "Duplicate device tokens are not allowed" := by
  rfl

/-- C8 amended: on the topic-subscription path too, every non-empty raw
string-list of at most 1000 entries that contains duplicate values is
rejected with the duplicate-token error (duplicates are never silently
dropped; the dedup only serves to detect them). -/
theorem C8_subscription_duplicates_rejected (v : List String)
    (hne : v ≠ []) (hlen : v.length ≤ 1000) (hdup : ¬ v.Nodup) :
    TopicSubscriptionRequest.validate_device_tokens v
      = Except.error "Duplicate device tokens are not allowed" := by
  have hgt : ¬ v.length > 1000 := by omega
  have hd : v.dedup.length ≠ v.length := by
    intro hlen2
    apply hdup
    have heq := (List.dedup_sublist v).eq_of_length hlen2
    rw [← heq]
    exact List.nodup_dedup v
  simp [TopicSubscriptionRequest.validate_device_tokens, hne, hgt, hd]

/-- Witness for C8 at a concrete duplicated list. -/
theorem C8_subscription_duplicates_rejected_witness :
    TopicSubscriptionRequest.validate_device_tokens ["a", "b", "a"]
      = Except.error "Duplicate device tokens are not allowed" :=
  C8_subscription_duplicates_rejected ["a", "b", "a"]
    (by decide) (by decide) (by decide)

/-- The `DeviceToken` value object (device_token.py); `value` has passed its
own construction-time validation. -/
structure DeviceToken where
  value : String
  platform : String
deriving Repr, DecidableEq

/-- The `DeviceTokenCollection` (`DeviceTokenList`, device_token.py). -/
structure DeviceTokenList where
  tokens : List DeviceToken
  max_tokens : Nat
deriving Repr, DecidableEq

/-- Embeds `DeviceTokenList.validate_tokens` (device_token.py lines 58-75):
empty check, then `max_tokens := values.get("max_tokens", 500)` over the
dict of previously-validated fields, then the size check with that limit,
then the duplicate-value check (`len(token_values) != len(set(token_values))`,
modelled through `dedup` length). -/
def DeviceTokenList.validate_tokens (v : List DeviceToken)
    (values_max_tokens : Option Nat) : Except String (List DeviceToken) :=
  if v = [] then Except.error "At least one device token is required"
  else
    let max_tokens := values_max_tokens.getD 500
    if v.length > max_tokens then
      Except.error ("Maximum " ++ toString max_tokens ++ " tokens allowed per request")
    else
      let token_values := v.map (fun t => t.value)
      if token_values.dedup.length ≠ token_values.length then
        Except.error "Duplicate device tokens are not allowed"
      else Except.ok v

/-- Pydantic constructs a `DeviceTokenList` by validating fields in
declaration order.  `tokens` is declared before `max_tokens`
(device_token.py lines 55-56), so when the `tokens` validator runs, the
`values` dict of previously-validated fields does not yet contain
`max_tokens` and `values.get("max_tokens", 500)` always yields 500: the
caller-supplied limit is stored on the instance but never reaches the
validator. -/
def mkDeviceTokenList (tokens : List DeviceToken) (max_tokens : Nat) :
    Except String DeviceTokenList :=
  match DeviceTokenList.validate_tokens tokens none with
  | Except.error e => Except.error e
  | Except.ok ts => Except.ok { tokens := ts, max_tokens := max_tokens }

/-- 600 distinct device tokens of valid shape. -/
def sixHundredTokens : List DeviceToken :=
  (List.range 600).map (fun i =>
    { value := "device-token-of-sufficient-length-" ++ toString i,
      platform := "android" })

/-- C9: the claim matches the code's evident intent (its comment reads "Get
max_tokens from the instance, fallback to class default"), but because the
`max_tokens` field is declared after `tokens`, the validator's `values` dict
never holds it and the limit is always 500.  Evaluated at the failing input:
600 distinct tokens with `max_tokens = 1000` — accepted per the claim — are
rejected with the max-exceeded error. -/
theorem C9_max_override_ignored :
    mkDeviceTokenList sixHundredTokens 1000
      = Except.error "Maximum 500 tokens allowed per request" := by
  have hlen : sixHundredTokens.length = 600 := by
    simp [sixHundredTokens]
  have hne : sixHundredTokens ≠ [] := by
    intro h
    rw [h] at hlen
    simp at hlen
  have hcond : 500 < sixHundredTokens.length := by
    rw [hlen]
    norm_num
  simp [mkDeviceTokenList, DeviceTokenList.validate_tokens, hne, hcond]
  rfl
